import Mathlib

/-!
Verification of the movie ranking / deduplication core of the YTS-Search-Bot
repository, as a shallow embedding in Lean 4.

The embedded code is the core pipeline shared by the bot variants:

* `EnhancedMovieNotifier.calculate_movie_score`
  (src/enhanced_movie_notifier.py, lines 107-202): the priority scorer;
* `EnhancedMovieNotifier.filter_high_rated_movies`
  (src/enhanced_movie_notifier.py, lines 204-229): the admission filter,
  score annotation and the descending stable sort of the admitted entries;
* `EnhancedMovieNotifier.get_new_movies`
  (src/enhanced_movie_notifier.py, lines 231-242): the novelty tracker.
  The same function appears verbatim in src/movie_notifier.py (lines
  155-166) and src/interactive_movie_bot.py (lines 356-367), so a single
  embedding covers all three;
* `MovieNotifier.calculate_movie_score` (src/movie_notifier.py, lines
  84-126): the simpler scorer of the basic bot variant.

Modelling conventions:

* Python dicts for movies become the `Movie` structure.  A field read with
  `movie.get(k, 0)` is an `Option` field consumed through `Option.getD 0`;
  `movie.get('date_uploaded', '')` is a `String` field whose missing value
  is the empty string (absent key and empty string are indistinguishable
  to the code).  The `'_score'` key written by `filter_high_rated_movies`
  is the `scoreField` field (`none` = key absent).
* Python floats are modelled as `ℚ` (the scores are sums of decimal
  literals and small products, so rational arithmetic is exact here).
* The reads of the ambient clock (`datetime.now(...)` inside the scorer)
  are modelled by an explicit `Clock` argument carrying the two
  quantities the code extracts from the clock: the current instant in
  epoch seconds and the current calendar year.
* `datetime.fromisoformat` (the Python standard library parser applied
  after `date_added.replace('Z', '+00:00')`) is modelled by `parseIso`,
  which implements the pre-3.11 `fromisoformat` grammar actually exercised
  by the data: `YYYY-MM-DD`, optionally followed by one separator
  character and `HH:MM:SS`, optionally followed by a `+HH:MM`/`-HH:MM`
  offset, with calendar validation.  Strings outside this grammar are
  treated as unparseable.  Naive timestamps are taken on the same scale
  as the clock's epoch seconds.
* The in-place mutation `movie['_score'] = ...` performed by
  `filter_high_rated_movies` on the entries of its input list is modelled
  by the companion function `filterInput_after`, which returns the values
  the input entries hold after the call.
-/

/-- One element of a movie's `torrents` list: a distribution variant.
Only `seeds` is read with a default (`torrent.get('seeds', 0)`), hence the
`Option`. -/
structure Torrent where
  quality : String
  size : String
  seeds : Option Int
deriving DecidableEq, Repr

/-- A catalog entry as the Python code reads it from the YTS JSON payload.
`scoreField` models the `'_score'` dict key (absent = `none`); all other
fields model the keys of the same name. -/
structure Movie where
  id : Option Int
  title : String
  year : Option Int
  rating : Option ℚ
  genres : List String
  date_uploaded : String
  torrents : List Torrent
  scoreField : Option ℚ
deriving DecidableEq, Repr

/-- The two quantities the scorer reads from the ambient clock:
`datetime.now(tz)` as epoch seconds, and `datetime.now().year`. -/
structure Clock where
  secs : Int
  year : Int
deriving DecidableEq, Repr

/-- Admission configuration: the module constants `MIN_RATING`, `MIN_YEAR`
and `EXCLUDED_GENRES` of src/enhanced_movie_notifier.py, lines 29-34. -/
structure Config where
  min_rating : ℚ
  min_year : Int
  excluded_genres : Finset String
deriving DecidableEq

/-! ### Timestamp parsing (`datetime.fromisoformat` model) -/

/-- Value of a decimal digit character. -/
def digitVal (c : Char) : Nat := c.toNat - 48

/-- Two decimal digits as a number; `none` if either is not a digit. -/
def twoDigits (a b : Char) : Option Nat :=
  if a.isDigit && b.isDigit then some (10 * digitVal a + digitVal b)
  else none

/-- Four decimal digits as a number; `none` if any is not a digit. -/
def fourDigits (a b c d : Char) : Option Nat :=
  if a.isDigit && b.isDigit && c.isDigit && d.isDigit then
    some (1000 * digitVal a + 100 * digitVal b + 10 * digitVal c + digitVal d)
  else none

/-- Gregorian leap-year test, as validated by `datetime`. -/
def isLeapYear (y : Nat) : Bool :=
  (y % 4 == 0 && y % 100 != 0) || y % 400 == 0

/-- Number of days in a month, as validated by `datetime`. -/
def daysInMonth (y m : Nat) : Nat :=
  if m == 2 then (if isLeapYear y then 29 else 28)
  else if m == 4 || m == 6 || m == 9 || m == 11 then 30
  else 31

/-- Days from the civil epoch 1970-01-01 to year `y`, month `m`, day `d`
(proleptic Gregorian; valid for `1 ≤ y`).  Standard days-from-civil
computation, done in `ℕ` and shifted to the epoch at the end. -/
def daysFromCivil (y m d : Nat) : Int :=
  let y2 := if m ≤ 2 then y - 1 else y
  let era := y2 / 400
  let yoe := y2 % 400
  let mp := if 2 < m then m - 3 else m + 9
  let doy := (153 * mp + 2) / 5 + (d - 1)
  let doe := yoe * 365 + yoe / 4 - yoe / 100 + doy
  (era * 146097 + doe : Int) - 719468

/-- Epoch seconds of a validated calendar date, or `none` if the fields are
out of the ranges `datetime` accepts. -/
def dateSeconds (y m d : Nat) : Option Int :=
  if 1 ≤ y && 1 ≤ m && m ≤ 12 && 1 ≤ d && d ≤ daysInMonth y m then
    some (daysFromCivil y m d * 86400)
  else none

/-- Seconds past midnight of a validated time of day, or `none` if out of
range. -/
def timeSeconds (h mi s : Nat) : Option Nat :=
  if h ≤ 23 && mi ≤ 59 && s ≤ 59 then some (h * 3600 + mi * 60 + s)
  else none

/-- Model of `datetime.fromisoformat` on the grammar the bot's data
exercises: `YYYY-MM-DD`, optionally one separator character and
`HH:MM:SS`, optionally a `+HH:MM` or `-HH:MM` offset.  Returns the instant
in epoch seconds (UTC for aware stamps; naive stamps are taken on the
clock's scale).  Any other shape is unparseable (`none`), which in the
scorer corresponds to the `except:` branch. -/
def parseIso (s : String) : Option Int :=
  match s.toList with
  | [y1, y2, y3, y4, '-', m1, m2, '-', d1, d2] => do
      let y ← fourDigits y1 y2 y3 y4
      let m ← twoDigits m1 m2
      let d ← twoDigits d1 d2
      dateSeconds y m d
  | [y1, y2, y3, y4, '-', m1, m2, '-', d1, d2, _sep,
     h1, h2, ':', mi1, mi2, ':', s1, s2] => do
      let y ← fourDigits y1 y2 y3 y4
      let m ← twoDigits m1 m2
      let d ← twoDigits d1 d2
      let h ← twoDigits h1 h2
      let mi ← twoDigits mi1 mi2
      let sec ← twoDigits s1 s2
      let ds ← dateSeconds y m d
      let ts ← timeSeconds h mi sec
      pure (ds + ts)
  | [y1, y2, y3, y4, '-', m1, m2, '-', d1, d2, _sep,
     h1, h2, ':', mi1, mi2, ':', s1, s2, sg, o1, o2, ':', p1, p2] => do
      let y ← fourDigits y1 y2 y3 y4
      let m ← twoDigits m1 m2
      let d ← twoDigits d1 d2
      let h ← twoDigits h1 h2
      let mi ← twoDigits mi1 mi2
      let sec ← twoDigits s1 s2
      let oh ← twoDigits o1 o2
      let om ← twoDigits p1 p2
      if sg = '+' || sg = '-' then do
        let ds ← dateSeconds y m d
        let ts ← timeSeconds h mi sec
        if oh ≤ 23 && om ≤ 59 then
          let off : Int := oh * 3600 + om * 60
          pure (ds + ts - (if sg = '+' then off else -off))
        else none
      else none
  | _ => none

/-! ### String helpers

The Python string operations the scorer uses (`str.replace` with the
one-character needle `'Z'`, `str.lower`, the substring test `pat in s`,
`char.isdigit`) are modelled on the character list of the string, because
the corresponding core-library functions are opaque to kernel reduction.
-/

/-- Does `pat` occur at the head of `cs`? -/
def charsStart : List Char → List Char → Bool
  | _, [] => true
  | [], _ :: _ => false
  | c :: cs, p :: ps => c = p && charsStart cs ps

/-- Does `pat` occur anywhere in `cs`? -/
def charsContain : List Char → List Char → Bool
  | [], pat => pat.isEmpty
  | c :: cs, pat => charsStart (c :: cs) pat || charsContain cs pat

/-- Python's substring test `pat in s`. -/
def strContains (s pat : String) : Bool :=
  charsContain s.data pat.data

/-- Model of `date_added.replace('Z', '+00:00')`: every occurrence of the single
character `'Z'` is replaced by `"+00:00"`. -/
def replaceZ (s : String) : String :=
  String.mk ((s.data.map (fun c => if c = 'Z' then "+00:00".data else [c])).flatten)

/-- Model of `str.lower()` (ASCII case folding, which is all the catalog titles
need). -/
def lowerStr (s : String) : String :=
  String.mk (s.data.map Char.toLower)

/-! ### The enhanced notifier (src/enhanced_movie_notifier.py) -/

namespace EnhancedMovieNotifier

/-- Constant `EXCLUDED_GENRES` of src/enhanced_movie_notifier.py, line 34. -/
def EXCLUDED_GENRES : Finset String :=
  (["Biography", "Documentary", "Drama", "History", "Sport", "Music",
    "Comedy"] : List String).toFinset

/-- Constant `PREFERRED_GENRES` of src/enhanced_movie_notifier.py, lines 37-40. -/
def PREFERRED_GENRES : Finset String :=
  (["Action", "Adventure", "Crime", "Fantasy", "Horror", "Mystery",
    "Romance", "Sci-Fi", "Thriller", "War", "Western"] : List String).toFinset

/-- The `high_priority_genres` literal of `calculate_movie_score`,
line 154. -/
def HIGH_PRIORITY_GENRES : Finset String :=
  (["Action", "Adventure", "Thriller", "Sci-Fi", "Horror"] :
    List String).toFinset

/-- The `sequel_indicators` literal of `calculate_movie_score`, line 189. -/
def SEQUEL_INDICATORS : List String :=
  ["2", "3", "4", "5", "6", "7", "8", "9", "10", "part", "sequel",
   "remake", "reboot"]

/-- The `famous_patterns` literal of `calculate_movie_score`, line 198. -/
def FAMOUS_PATTERNS : List String :=
  ["years later", "happy", "gilmore", "sitaare", "zameen", "par"]

/-- The default configuration of src/enhanced_movie_notifier.py
(`MIN_RATING = 6.0`, `MIN_YEAR = 2025`, `EXCLUDED_GENRES`). -/
def defaultConfig : Config :=
  { min_rating := 6, min_year := 2025, excluded_genres := EXCLUDED_GENRES }

/-- Lines 115-138 of `calculate_movie_score`: the listing-recency
contribution.  An absent/empty `date_uploaded` fails the `if date_added:`
truthiness guard, so the whole block is skipped (contribution 0); a
non-empty string is passed through `.replace('Z', '+00:00')` and
`datetime.fromisoformat`; on success a tiered bonus by hours since the
listing is added, and on a parse failure the `except:` branch adds 15. -/
def recencyBonus (clock : Clock) (date_added : String) : ℚ :=
  if date_added = "" then 0
  else
    match parseIso (replaceZ date_added) with
    | some t =>
        let hours_since_added : ℚ := ((clock.secs - t : ℤ) : ℚ) / 3600
        if hours_since_added ≤ 24 then 100
        else if hours_since_added ≤ 72 then 60
        else if hours_since_added ≤ 168 then 40
        else if hours_since_added ≤ 720 then 20
        else 10
    | none => 15

/-- Lines 140-148 of `calculate_movie_score`: the release-year bonus
(`current_year` is `datetime.now().year`, here `clock.year`). -/
def yearBonus (clock : Clock) (year : Option Int) : ℚ :=
  let y := year.getD 0
  if y ≥ clock.year then 25
  else if y ≥ clock.year - 1 then 15
  else if y ≥ clock.year - 2 then 8
  else 0

/-- Lines 150-168 of `calculate_movie_score`: the genre contribution.
`set(movie.get('genres', []))` is `genres.toFinset`. -/
def genreBonus (genres : List String) : ℚ :=
  let g := genres.toFinset
  let high_priority_count := (g ∩ HIGH_PRIORITY_GENRES).card
  let preferred_count := (g ∩ PREFERRED_GENRES).card
  (high_priority_count : ℚ) * 5 + (preferred_count : ℚ) * 3
    + (if 2 ≤ high_priority_count then 15 else 0)
    + (if 2 ≤ preferred_count then 8 else 0)

/-- Model of `sum(torrent.get('seeds', 0) for torrent in torrents)`, line 177. -/
def totalSeeds (torrents : List Torrent) : Int :=
  (torrents.map (fun t => t.seeds.getD 0)).sum

/-- Lines 178-183 of `calculate_movie_score`: the tiered seed-count
bonus. -/
def seedTierBonus (total_seeds : Int) : ℚ :=
  if 200 < total_seeds then 10
  else if 100 < total_seeds then 6
  else if 50 < total_seeds then 3
  else 0

/-- Lines 170-183 of `calculate_movie_score`: the distribution-variant
contribution; the whole block is guarded by the truthiness of the
`torrents` list. -/
def torrentBonus (torrents : List Torrent) : ℚ :=
  if torrents.isEmpty then 0
  else ((min torrents.length 3 : ℕ) : ℚ) * 2 + seedTierBonus (totalSeeds torrents)

/-- Lines 185-200 of `calculate_movie_score`: the title heuristics, run on
the lower-cased title. -/
def titleBonus (title : String) : ℚ :=
  let t := lowerStr title
  (if SEQUEL_INDICATORS.any (fun p => strContains t p) then 20 else 0)
    + (if t.data.any Char.isDigit then 15 else 0)
    + (if FAMOUS_PATTERNS.any (fun p => strContains t p) then 25 else 0)

/-- Embedding of `EnhancedMovieNotifier.calculate_movie_score`
(src/enhanced_movie_notifier.py, lines 107-202): the sum of the
contributions, starting from `rating * 3` with
`rating = movie.get('rating', 0)`.  The internal `datetime.now(...)`
reads are the explicit `clock` argument. -/
def calculate_movie_score (clock : Clock) (movie : Movie) : ℚ :=
  movie.rating.getD 0 * 3
    + recencyBonus clock movie.date_uploaded
    + yearBonus clock movie.year
    + genreBonus movie.genres
    + torrentBonus movie.torrents
    + titleBonus movie.title

/-- The admission predicate of `filter_high_rated_movies`
(src/enhanced_movie_notifier.py, lines 208-219): the two `continue`
branches, with `movie.get('rating', 0)` and `movie.get('year', 0)` as
`getD 0` and the genre truthiness test as `Finset.Nonempty`. -/
def passesFilter (cfg : Config) (m : Movie) : Bool :=
  if m.rating.getD 0 < cfg.min_rating ∨ m.year.getD 0 < cfg.min_year then
    false
  else if (m.genres.toFinset ∩ cfg.excluded_genres).Nonempty then
    false
  else
    true

/-- The `movie['_score'] = self.calculate_movie_score(movie)` assignment,
line 222: the entry with its score written into the `'_score'` key. -/
def annotate (clock : Clock) (m : Movie) : Movie :=
  { m with scoreField := some (calculate_movie_score clock m) }

/-- The accumulation loop of `filter_high_rated_movies`, lines 206-223:
entries failing the admission predicate are skipped; admitted entries are
annotated with their score and appended in input order. -/
def filterLoop (cfg : Config) (clock : Clock) : List Movie → List Movie
  | [] => []
  | m :: ms =>
      if passesFilter cfg m then annotate clock m :: filterLoop cfg clock ms
      else filterLoop cfg clock ms

/-- The sort key `lambda x: (x['_score'], x.get('rating', 0))` of line
226 (every sorted entry has `'_score'` set by the loop; `getD 0` models
the lookup). -/
def sortKey (m : Movie) : ℚ × ℚ :=
  (m.scoreField.getD 0, m.rating.getD 0)

/-- Lexicographic order on the sort key pairs (Python tuple comparison). -/
def keyLe (a b : ℚ × ℚ) : Prop :=
  a.1 < b.1 ∨ (a.1 = b.1 ∧ a.2 ≤ b.2)

instance (a b : ℚ × ℚ) : Decidable (keyLe a b) := by
  unfold keyLe; infer_instance

/-- Stable descending insertion: `m` goes in front of the first element
whose key is `≤` its own, so earlier input stays in front on ties.  This
models the behaviour of Python's stable `list.sort(key=..., reverse=True)`
of line 226. -/
def insertDesc (m : Movie) : List Movie → List Movie
  | [] => [m]
  | x :: xs =>
      if keyLe (sortKey x) (sortKey m) then m :: x :: xs
      else x :: insertDesc m xs

/-- Stable descending sort by `sortKey`: the behaviour of
`filtered_movies.sort(key=lambda x: (x['_score'], x.get('rating', 0)),
reverse=True)`, line 226. -/
def sortByKeyDesc : List Movie → List Movie
  | [] => []
  | m :: ms => insertDesc m (sortByKeyDesc ms)

/-- Embedding of `EnhancedMovieNotifier.filter_high_rated_movies`
(src/enhanced_movie_notifier.py, lines 204-229): the return value — the
admitted, score-annotated entries, sorted descending by
`(score, rating)`. -/
def filter_high_rated_movies (cfg : Config) (clock : Clock)
    (movies : List Movie) : List Movie :=
  sortByKeyDesc (filterLoop cfg clock movies)

/-- The values the entries of the *input* list hold after
`filter_high_rated_movies` returns: the call mutates each admitted entry
in place (`movie['_score'] = ...`, line 222) and leaves rejected entries
untouched. -/
def filterInput_after (cfg : Config) (clock : Clock)
    (movies : List Movie) : List Movie :=
  movies.map (fun m => if passesFilter cfg m then annotate clock m else m)

end EnhancedMovieNotifier

/-! ### The basic notifier's scorer (src/movie_notifier.py) -/

namespace MovieNotifier

/-- Constant `PREFERRED_GENRES` of src/movie_notifier.py, lines 35-38 (this variant
includes `Comedy`). -/
def PREFERRED_GENRES : Finset String :=
  (["Action", "Adventure", "Comedy", "Crime", "Fantasy", "Horror",
    "Mystery", "Romance", "Sci-Fi", "Thriller", "War", "Western"] :
    List String).toFinset

/-- Lines 92-100 of `MovieNotifier.calculate_movie_score`: the
release-year bonus. -/
def yearBonus (clock : Clock) (year : Option Int) : ℚ :=
  let y := year.getD 0
  if y ≥ clock.year - 1 then 10
  else if y ≥ clock.year - 2 then 5
  else if y ≥ clock.year - 3 then 2
  else 0

/-- Lines 102-111 of `MovieNotifier.calculate_movie_score`: the genre
contribution. -/
def genreBonus (genres : List String) : ℚ :=
  let preferred_count := (genres.toFinset ∩ PREFERRED_GENRES).card
  (preferred_count : ℚ) * 3 + (if 2 ≤ preferred_count then 5 else 0)

/-- Lines 121-124 of `MovieNotifier.calculate_movie_score`: the tiered
seed-count bonus of the basic variant. -/
def seedTierBonus (total_seeds : Int) : ℚ :=
  if 100 < total_seeds then 5
  else if 50 < total_seeds then 3
  else 0

/-- Lines 113-124 of `MovieNotifier.calculate_movie_score`: the
distribution-variant contribution. -/
def torrentBonus (torrents : List Torrent) : ℚ :=
  if torrents.isEmpty then 0
  else ((min torrents.length 3 : ℕ) : ℚ) * 2
    + seedTierBonus (EnhancedMovieNotifier.totalSeeds torrents)

/-- Embedding of `MovieNotifier.calculate_movie_score` (src/movie_notifier.py, lines
84-126): `rating * 2` plus the year, genre and torrent contributions. -/
def calculate_movie_score (clock : Clock) (movie : Movie) : ℚ :=
  movie.rating.getD 0 * 2
    + yearBonus clock movie.year
    + genreBonus movie.genres
    + torrentBonus movie.torrents

end MovieNotifier

/-! ### The novelty tracker -/

/-- Embedding of `get_new_movies` — identical in `EnhancedMovieNotifier`
(src/enhanced_movie_notifier.py, lines 231-242), `MovieNotifier`
(src/movie_notifier.py, lines 155-166) and `InteractiveMovieBot`
(src/interactive_movie_bot.py, lines 356-367).  The `self.known_movies`
set is passed and returned explicitly.  `if movie_id and movie_id not in
self.known_movies` keeps an entry exactly when its id is present, non-zero
(Python truthiness of an int) and not yet recorded; kept ids are recorded
immediately, so a duplicate later in the same batch is already
suppressed. -/
def get_new_movies : List Movie → Finset Int → List Movie × Finset Int
  | [], known => ([], known)
  | m :: ms, known =>
      match m.id with
      | some i =>
          if i ≠ 0 ∧ i ∉ known then
            let r := get_new_movies ms (insert i known)
            (m :: r.1, r.2)
          else get_new_movies ms known
      | none => get_new_movies ms known

/-- Python truthiness of the `id` field: present and non-zero. -/
def truthyId (m : Movie) : Bool :=
  match m.id with
  | some i => i != 0
  | none => false

/-- A sequence of `get_new_movies` calls against one `known_movies` set:
the per-call outputs and the final set. -/
def runCalls : List (List Movie) → Finset Int → List (List Movie) × Finset Int
  | [], known => ([], known)
  | b :: bs, known =>
      let r := get_new_movies b known
      let rest := runCalls bs r.2
      (r.1 :: rest.1, rest.2)

/-! ### Concrete test fixtures

Small concrete entries used to instantiate the verified properties and to
exhibit counterexamples. -/

/-- A plain entry with no optional data at all. -/
def emptyMovie : Movie :=
  { id := none, title := "", year := none, rating := none, genres := [],
    date_uploaded := "", torrents := [], scoreField := none }

/-- An admissible entry with identifier 1. -/
def movieA : Movie :=
  { id := some 1, title := "Alpha", year := some 2025, rating := some 7,
    genres := ["Action"], date_uploaded := "", torrents := [],
    scoreField := none }

/-- An admissible entry with identifier 2. -/
def movieB : Movie :=
  { id := some 2, title := "Beta", year := some 2025, rating := some 8,
    genres := ["Horror"], date_uploaded := "", torrents := [],
    scoreField := none }

/-- An entry whose identifier key is present but `0` (falsy in Python). -/
def movieZeroId : Movie :=
  { movieA with id := some 0 }

/-- A low-rated but admissible entry. -/
def movieLow : Movie :=
  { id := some 3, title := "Low", year := some 2025, rating := some 6,
    genres := [], date_uploaded := "", torrents := [], scoreField := none }

/-- A high-rated admissible entry (out-scores `movieLow`). -/
def movieHigh : Movie :=
  { id := some 4, title := "High", year := some 2025, rating := some 9,
    genres := [], date_uploaded := "", torrents := [], scoreField := none }

/-- A single distribution variant with a moderate seed count. -/
def torrent120 : Torrent :=
  { quality := "1080p", size := "2 GB", seeds := some 120 }

/-- An entry carrying one distribution variant. -/
def movieTorrent : Movie :=
  { movieA with torrents := [torrent120] }

/-- An entry listed at 2025-06-01 10:00:00 (epoch second 1748772000). -/
def movieStamped : Movie :=
  { movieA with date_uploaded := "2025-06-01 10:00:00" }

/-- An entry with an unparseable listing timestamp. -/
def movieBadStamp : Movie :=
  { movieA with date_uploaded := "not-a-date" }

/-- A clock instant 2 hours after `movieStamped`'s listing, in 2025. -/
def clock2h : Clock :=
  { secs := 1748779200, year := 2025 }

/-- A clock instant 1000 hours after `movieStamped`'s listing, in 2025. -/
def clock1000h : Clock :=
  { secs := 1752372000, year := 2025 }

/-- An entry listed at 2025-05-24 04:00:00 (epoch second 1748059200),
200 hours before `clock2h`. -/
def movieStampedOld : Movie :=
  { movieA with date_uploaded := "2025-05-24 04:00:00" }

/-! ### Lemmas about the novelty tracker -/

/-- The known-id set only grows during a call. -/
lemma get_new_movies_known_subset (ms : List Movie) (s : Finset Int) :
    s ⊆ (get_new_movies ms s).2 := by
  induction ms generalizing s with
  | nil => simp [get_new_movies]
  | cons m ms ih =>
      cases h : m.id with
      | none => simpa [get_new_movies, h] using ih s
      | some i =>
          by_cases hc : i ≠ 0 ∧ i ∉ s
          · simp only [get_new_movies, h, if_pos hc]
            exact (Finset.subset_insert i s).trans (ih (insert i s))
          · simp only [get_new_movies, h, if_neg hc]
            exact ih s

/-- Every entry of the output carries a non-zero identifier that was not in
the state at call entry. -/
lemma get_new_movies_out_novel (ms : List Movie) (s : Finset Int) :
    ∀ m ∈ (get_new_movies ms s).1, ∃ i, m.id = some i ∧ i ≠ 0 ∧ i ∉ s := by
  induction ms generalizing s with
  | nil => simp [get_new_movies]
  | cons m ms ih =>
      cases h : m.id with
      | none =>
          simpa [get_new_movies, h] using ih s
      | some i =>
          by_cases hc : i ≠ 0 ∧ i ∉ s
          · simp only [get_new_movies, h, if_pos hc]
            intro x hx
            rcases List.mem_cons.mp hx with rfl | hx
            · exact ⟨i, h, hc⟩
            · rcases ih (insert i s) x hx with ⟨j, hj, hj0, hjs⟩
              exact ⟨j, hj, hj0, fun hmem => hjs (Finset.mem_insert_of_mem hmem)⟩
          · simp only [get_new_movies, h, if_neg hc]
            exact ih s

/-- Every non-zero identifier occurring in the batch is recorded in the
state returned by the call. -/
lemma get_new_movies_ids_recorded (ms : List Movie) (s : Finset Int) :
    ∀ m ∈ ms, ∀ i, m.id = some i → i ≠ 0 → i ∈ (get_new_movies ms s).2 := by
  induction ms generalizing s with
  | nil => simp
  | cons m ms ih =>
      intro x hx i hi h0
      rcases List.mem_cons.mp hx with rfl | hx
      · simp only [get_new_movies, hi]
        by_cases hc : i ≠ 0 ∧ i ∉ s
        · rw [if_pos hc]
          exact get_new_movies_known_subset ms (insert i s)
            (Finset.mem_insert_self i s)
        · rw [if_neg hc]
          push_neg at hc
          exact get_new_movies_known_subset ms s (hc h0)
      · cases h : m.id with
        | none =>
            simp only [get_new_movies, h]
            exact ih s x hx i hi h0
        | some jm =>
            simp only [get_new_movies, h]
            by_cases hc : jm ≠ 0 ∧ jm ∉ s
            · rw [if_pos hc]
              exact ih (insert jm s) x hx i hi h0
            · rw [if_neg hc]
              exact ih s x hx i hi h0

/-- If every non-zero identifier of the batch is already known, the call is
a no-op: empty output, unchanged state. -/
lemma get_new_movies_all_known (ms : List Movie) (s : Finset Int)
    (h : ∀ m ∈ ms, ∀ i, m.id = some i → i ≠ 0 → i ∈ s) :
    get_new_movies ms s = ([], s) := by
  induction ms with
  | nil => simp [get_new_movies]
  | cons m ms ih =>
      cases hid : m.id with
      | none =>
          simp only [get_new_movies, hid]
          exact ih fun x hx => h x (List.mem_cons_of_mem m hx)
      | some i =>
          have hcond : ¬(i ≠ 0 ∧ i ∉ s) := by
            push_neg
            intro h0
            exact h m (List.mem_cons_self m ms) i hid h0
          simp only [get_new_movies, hid, if_neg hcond]
          exact ih fun x hx => h x (List.mem_cons_of_mem m hx)

/-- The known-id set only grows across a sequence of calls. -/
lemma runCalls_known_subset (bs : List (List Movie)) (s : Finset Int) :
    s ⊆ (runCalls bs s).2 := by
  induction bs generalizing s with
  | nil => simp [runCalls]
  | cons b bs ih =>
      simp only [runCalls]
      exact (get_new_movies_known_subset b s).trans (ih (get_new_movies b s).2)

/-- No output of any call in a sequence contains an entry whose identifier
was in the state when the sequence started. -/
lemma runCalls_no_known_id (bs : List (List Movie)) (s : Finset Int) :
    ∀ out ∈ (runCalls bs s).1, ∀ m ∈ out, ∀ i, i ∈ s → m.id ≠ some i := by
  induction bs generalizing s with
  | nil => simp [runCalls]
  | cons b bs ih =>
      intro out hout m hm i hi heq
      simp only [runCalls, List.mem_cons] at hout
      rcases hout with rfl | hout
      · rcases get_new_movies_out_novel b s m hm with ⟨j, hj, _, hjs⟩
        rw [heq] at hj
        cases hj
        exact hjs hi
      · exact ih (get_new_movies b s).2 out hout m hm i
          (get_new_movies_known_subset b s hi) heq

/-- Entries with a falsy identifier are transparent to the tracker: the
call behaves exactly as if they were absent from the batch. -/
lemma get_new_movies_filter_truthy (ms : List Movie) (s : Finset Int) :
    get_new_movies ms s = get_new_movies (ms.filter truthyId) s := by
  induction ms generalizing s with
  | nil => simp
  | cons m ms ih =>
      cases h : m.id with
      | none =>
          have ht : truthyId m = false := by simp [truthyId, h]
          simp only [List.filter_cons, ht, Bool.false_eq_true, if_false]
          simp only [get_new_movies, h]
          exact ih s
      | some i =>
          by_cases h0 : i = 0
          · subst h0
            have ht : truthyId m = false := by simp [truthyId, h]
            simp only [List.filter_cons, ht, Bool.false_eq_true, if_false]
            simp only [get_new_movies, h]
            rw [if_neg (by simp)]
            exact ih s
          · have ht : truthyId m = true := by simp [truthyId, h, h0]
            simp only [List.filter_cons, ht, if_true]
            simp only [get_new_movies, h]
            by_cases hc : i ≠ 0 ∧ i ∉ s
            · rw [if_pos hc, if_pos hc, ih (insert i s)]
            · rw [if_neg hc, if_neg hc]
              exact ih s

/-! ### Claims about the novelty tracker -/

/-- C3: Novelty-state invariant.  Along any sequence of `filterNew`
(`get_new_movies`) calls against a single state, the set of recorded
identifiers grows monotonically (never loses an element), and once an
identifier is in the state, no output of any later call contains an entry
with that identifier. -/
theorem C3_novelty_state_invariant (pre post : List (List Movie)) (s : Finset Int) :
    s ⊆ (runCalls pre s).2 ∧
    ∀ i ∈ (runCalls pre s).2,
      ∀ out ∈ (runCalls post (runCalls pre s).2).1, ∀ m ∈ out, m.id ≠ some i := by
  refine ⟨runCalls_known_subset pre s, ?_⟩
  intro i hi out hout m hm
  exact runCalls_no_known_id post _ out hout m hm i hi

/-- Witness for C3: after a first call on `[movieA]`, identifier 1 is in
the state, and the output of a later call on `[movieA, movieB]` (which is
`[movieB]`) contains no entry with identifier 1. -/
theorem C3_novelty_state_invariant_witness :
    (∅ : Finset Int) ⊆ (runCalls [[movieA]] ∅).2 ∧ movieB.id ≠ some 1 :=
  ⟨(C3_novelty_state_invariant [[movieA]] [[movieA, movieB]] ∅).1,
   (C3_novelty_state_invariant [[movieA]] [[movieA, movieB]] ∅).2 1 (by decide)
     [movieB] (by decide) movieB (by decide)⟩

/-- C4: Idempotent suppression.  Running `get_new_movies` a second time
with the same entries, starting from the state produced by the first run,
returns an empty sequence and leaves the state unchanged. -/
theorem C4_idempotent_suppression (ms : List Movie) (s : Finset Int) :
    get_new_movies ms (get_new_movies ms s).2 = ([], (get_new_movies ms s).2) :=
  get_new_movies_all_known ms _
    (fun m hm i hi h0 => get_new_movies_ids_recorded ms s m hm i hi h0)

/-- C10: Falsy identifiers are treated as absent.  `get_new_movies`
behaves on any batch exactly as on the batch with the falsy-id entries
removed (so such an entry is never output and its identifier is never
recorded), and every output entry has a present, non-zero identifier. -/
theorem C10_falsy_id_skipped (ms : List Movie) (s : Finset Int) :
    get_new_movies ms s = get_new_movies (ms.filter truthyId) s ∧
    ∀ m ∈ (get_new_movies ms s).1, truthyId m = true := by
  refine ⟨get_new_movies_filter_truthy ms s, ?_⟩
  intro m hm
  rcases get_new_movies_out_novel ms s m hm with ⟨i, hid, h0, _⟩
  simp [truthyId, hid, h0]

/-- Witness for C10: on the batch `[movieZeroId, movieA]` the call equals
the call on the filtered batch, and the output entry `movieA` has a
truthy identifier. -/
theorem C10_falsy_id_skipped_witness :
    get_new_movies [movieZeroId, movieA] ∅
        = get_new_movies ([movieZeroId, movieA].filter truthyId) ∅ ∧
    truthyId movieA = true :=
  ⟨(C10_falsy_id_skipped [movieZeroId, movieA] ∅).1,
   (C10_falsy_id_skipped [movieZeroId, movieA] ∅).2 movieA (by decide)⟩

/-! ### Lemmas about the admission filter and the stable sort -/

namespace EnhancedMovieNotifier

/-- Relation `keyLe` is total (Python tuple comparison is a total order). -/
lemma keyLe_total (a b : ℚ × ℚ) : keyLe a b ∨ keyLe b a := by
  unfold keyLe
  rcases lt_trichotomy a.1 b.1 with h | h | h
  · exact Or.inl (Or.inl h)
  · rcases le_total a.2 b.2 with h2 | h2
    · exact Or.inl (Or.inr ⟨h, h2⟩)
    · exact Or.inr (Or.inr ⟨h.symm, h2⟩)
  · exact Or.inr (Or.inl h)

/-- Relation `keyLe` is transitive. -/
lemma keyLe_trans {a b c : ℚ × ℚ} (h1 : keyLe a b) (h2 : keyLe b c) :
    keyLe a c := by
  unfold keyLe at h1 h2 ⊢
  rcases h1 with h1 | ⟨e1, l1⟩ <;> rcases h2 with h2 | ⟨e2, l2⟩
  · exact Or.inl (h1.trans h2)
  · exact Or.inl (e2 ▸ h1)
  · exact Or.inl (e1 ▸ h2)
  · exact Or.inr ⟨e1.trans e2, l1.trans l2⟩

/-- Totality in the form used when the insertion walks past an element. -/
lemma keyLe_of_not_keyLe {a b : ℚ × ℚ} (h : ¬ keyLe a b) : keyLe b a :=
  (keyLe_total a b).resolve_left h

/-- Strictness: keys an insertion walks past are different from the
inserted key. -/
lemma ne_of_not_keyLe {a b : ℚ × ℚ} (h : ¬ keyLe a b) : a ≠ b := by
  intro he
  exact h (he ▸ Or.inr ⟨rfl, le_rfl⟩)

/-- Inserting is a permutation of consing. -/
lemma insertDesc_perm (m : Movie) (l : List Movie) :
    List.Perm (insertDesc m l) (m :: l) := by
  induction l with
  | nil => exact List.Perm.refl _
  | cons x xs ih =>
      unfold insertDesc
      by_cases h : keyLe (sortKey x) (sortKey m)
      · rw [if_pos h]
      · rw [if_neg h]
        exact (ih.cons x).trans (List.Perm.swap m x xs)

/-- The stable sort permutes its input. -/
lemma sortByKeyDesc_perm (l : List Movie) :
    List.Perm (sortByKeyDesc l) l := by
  induction l with
  | nil => exact List.Perm.refl _
  | cons m ms ih =>
      exact (insertDesc_perm m (sortByKeyDesc ms)).trans (ih.cons m)

/-- Inserting into a descending-sorted list keeps it descending-sorted. -/
lemma insertDesc_pairwise {m : Movie} {l : List Movie}
    (hl : l.Pairwise (fun a b => keyLe (sortKey b) (sortKey a))) :
    (insertDesc m l).Pairwise (fun a b => keyLe (sortKey b) (sortKey a)) := by
  induction l with
  | nil => simp [insertDesc]
  | cons x xs ih =>
      rcases List.pairwise_cons.mp hl with ⟨hx, hxs⟩
      unfold insertDesc
      by_cases h : keyLe (sortKey x) (sortKey m)
      · rw [if_pos h]
        refine List.pairwise_cons.mpr ⟨?_, hl⟩
        intro y hy
        rcases List.mem_cons.mp hy with rfl | hy
        · exact h
        · exact keyLe_trans (hx y hy) h
      · rw [if_neg h]
        refine List.pairwise_cons.mpr ⟨?_, ih hxs⟩
        intro y hy
        rcases List.mem_cons.mp ((insertDesc_perm m xs).mem_iff.mp hy) with rfl | hy2
        · exact keyLe_of_not_keyLe h
        · exact hx y hy2

/-- The stable sort emits the entries in descending key order. -/
lemma sortByKeyDesc_pairwise (l : List Movie) :
    (sortByKeyDesc l).Pairwise (fun a b => keyLe (sortKey b) (sortKey a)) := by
  induction l with
  | nil => simp [sortByKeyDesc]
  | cons m ms ih => exact insertDesc_pairwise ih

/-- Restricting to the inserted element's own key, insertion puts the new
element exactly at the front: the elements it walked past all have
strictly greater keys. -/
lemma insertDesc_filter_eq (m : Movie) (l : List Movie) (k : ℚ × ℚ)
    (hm : sortKey m = k) :
    (insertDesc m l).filter (fun x => decide (sortKey x = k))
      = m :: l.filter (fun x => decide (sortKey x = k)) := by
  induction l with
  | nil => simp [insertDesc, hm]
  | cons x xs ih =>
      unfold insertDesc
      by_cases h : keyLe (sortKey x) (sortKey m)
      · rw [if_pos h]
        simp [List.filter_cons, hm]
      · rw [if_neg h]
        have hxk : ¬ sortKey x = k := fun he =>
          ne_of_not_keyLe h (he.trans hm.symm)
        simp only [List.filter_cons]
        rw [show decide (sortKey x = k) = false by simp [hxk]]
        simpa using ih

/-- Restricting to any other key, insertion is invisible. -/
lemma insertDesc_filter_ne (m : Movie) (l : List Movie) (k : ℚ × ℚ)
    (hm : ¬ sortKey m = k) :
    (insertDesc m l).filter (fun x => decide (sortKey x = k))
      = l.filter (fun x => decide (sortKey x = k)) := by
  induction l with
  | nil => simp [insertDesc, hm]
  | cons x xs ih =>
      unfold insertDesc
      by_cases h : keyLe (sortKey x) (sortKey m)
      · rw [if_pos h]
        simp [List.filter_cons, hm]
      · rw [if_neg h]
        by_cases hx : sortKey x = k
        · simp only [List.filter_cons]
          rw [show decide (sortKey x = k) = true by simp [hx]]
          simp only [if_true]
          rw [ih]
        · simp only [List.filter_cons]
          rw [show decide (sortKey x = k) = false by simp [hx]]
          simpa using ih

/-- Stability of the sort: within each exact key, the emitted order is the
input order. -/
lemma sortByKeyDesc_filter (l : List Movie) (k : ℚ × ℚ) :
    (sortByKeyDesc l).filter (fun x => decide (sortKey x = k))
      = l.filter (fun x => decide (sortKey x = k)) := by
  induction l with
  | nil => simp [sortByKeyDesc]
  | cons m ms ih =>
      by_cases hm : sortKey m = k
      · rw [show sortByKeyDesc (m :: ms) = insertDesc m (sortByKeyDesc ms) from rfl,
          insertDesc_filter_eq m _ k hm, ih]
        simp [List.filter_cons, hm]
      · rw [show sortByKeyDesc (m :: ms) = insertDesc m (sortByKeyDesc ms) from rfl,
          insertDesc_filter_ne m _ k hm, ih]
        simp [List.filter_cons, hm]

/-- Membership in the admission loop's output. -/
lemma mem_filterLoop {cfg : Config} {clock : Clock} {m' : Movie}
    {ms : List Movie} :
    m' ∈ filterLoop cfg clock ms ↔
      ∃ m, m ∈ ms ∧ passesFilter cfg m = true ∧ m' = annotate clock m := by
  induction ms with
  | nil => simp [filterLoop]
  | cons x xs ih =>
      unfold filterLoop
      by_cases h : passesFilter cfg x
      · rw [if_pos h]
        simp only [List.mem_cons, ih]
        constructor
        · rintro (rfl | ⟨m, hm, hp, rfl⟩)
          · exact ⟨x, Or.inl rfl, h, rfl⟩
          · exact ⟨m, Or.inr hm, hp, rfl⟩
        · rintro ⟨m, rfl | hm, hp, rfl⟩
          · exact Or.inl rfl
          · exact Or.inr ⟨m, hm, hp, rfl⟩
      · rw [if_neg h, ih]
        simp only [List.mem_cons]
        constructor
        · rintro ⟨m, hm, hp, rfl⟩
          exact ⟨m, Or.inr hm, hp, rfl⟩
        · rintro ⟨m, rfl | hm, hp, rfl⟩
          · exact absurd hp h
          · exact ⟨m, hm, hp, rfl⟩

/-- Two entries with the same annotation agree on every field the
admission predicate reads. -/
lemma passesFilter_of_annotate_eq {clock : Clock} {a b : Movie}
    (h : annotate clock a = annotate clock b) (cfg : Config) :
    passesFilter cfg a = passesFilter cfg b := by
  cases a; cases b
  simp only [annotate, Movie.mk.injEq] at h
  obtain ⟨h1, h2, h3, h4, h5, h6, h7, -⟩ := h
  subst h1; subst h2; subst h3; subst h4; subst h5; subst h6; subst h7
  rfl

/-- The admission predicate, spelt as the specification states it. -/
lemma passesFilter_iff (cfg : Config) (m : Movie) :
    passesFilter cfg m = true ↔
      cfg.min_rating ≤ m.rating.getD 0 ∧ cfg.min_year ≤ m.year.getD 0 ∧
        Disjoint m.genres.toFinset cfg.excluded_genres := by
  unfold passesFilter
  split_ifs with h1 h2
  · simp only [Bool.false_eq_true, false_iff]
    rintro ⟨hr, hy, -⟩
    rcases h1 with h | h
    · exact absurd h (not_lt.mpr hr)
    · exact absurd h (not_lt.mpr hy)
  · simp only [Bool.false_eq_true, false_iff]
    rintro ⟨-, -, hd⟩
    rw [Finset.disjoint_iff_inter_eq_empty.mp hd] at h2
    exact Finset.not_nonempty_empty h2
  · simp only [true_iff]
    push_neg at h1
    exact ⟨h1.1, h1.2, Finset.disjoint_iff_inter_eq_empty.mpr
      (Finset.not_nonempty_iff_eq_empty.mp h2)⟩

end EnhancedMovieNotifier

/-! ### Claims about the admission filter and ordering -/

/-- C1: Admission criterion.  An entry of the input batch appears
(score-annotated) in the output of `filter_high_rated_movies` exactly when
its rating (0 when missing) is at least `min_rating`, its year (0 when
missing) is at least `min_year`, and its genre set is disjoint from the
excluded genres. -/
theorem C1_admission_criterion (cfg : Config) (clock : Clock)
    (movies : List Movie) (m : Movie) (hm : m ∈ movies) :
    EnhancedMovieNotifier.annotate clock m ∈
        EnhancedMovieNotifier.filter_high_rated_movies cfg clock movies ↔
      cfg.min_rating ≤ m.rating.getD 0 ∧ cfg.min_year ≤ m.year.getD 0 ∧
        Disjoint m.genres.toFinset cfg.excluded_genres := by
  rw [← EnhancedMovieNotifier.passesFilter_iff]
  unfold EnhancedMovieNotifier.filter_high_rated_movies
  rw [(EnhancedMovieNotifier.sortByKeyDesc_perm _).mem_iff,
    EnhancedMovieNotifier.mem_filterLoop]
  constructor
  · rintro ⟨m2, hm2, hp2, he⟩
    rw [EnhancedMovieNotifier.passesFilter_of_annotate_eq he cfg]
    exact hp2
  · intro hp
    exact ⟨m, hm, hp, rfl⟩

/-- Witness for C1: `movieA` is in the batch `[movieA]`, and the
admission equivalence holds for it under the default configuration. -/
theorem C1_admission_criterion_witness :
    movieA ∈ [movieA] ∧
    (EnhancedMovieNotifier.annotate clock2h movieA ∈
        EnhancedMovieNotifier.filter_high_rated_movies
          EnhancedMovieNotifier.defaultConfig clock2h [movieA] ↔
      EnhancedMovieNotifier.defaultConfig.min_rating ≤ movieA.rating.getD 0 ∧
        EnhancedMovieNotifier.defaultConfig.min_year ≤ movieA.year.getD 0 ∧
        Disjoint movieA.genres.toFinset
          EnhancedMovieNotifier.defaultConfig.excluded_genres) :=
  ⟨by simp,
   C1_admission_criterion EnhancedMovieNotifier.defaultConfig clock2h
     [movieA] movieA (by simp)⟩

/-- C5 (counterexample): the claim that `filter_high_rated_movies`
preserves the relative input order of admitted entries is false.  Both
`movieLow` and `movieHigh` are admitted, `movieLow` precedes `movieHigh`
in the input, yet the output lists (the annotation of) `movieHigh` first,
because the function sorts its result by descending `(score, rating)`. -/
theorem C5_order_preservation_counterexample :
    EnhancedMovieNotifier.passesFilter EnhancedMovieNotifier.defaultConfig
        movieLow = true ∧
    EnhancedMovieNotifier.passesFilter EnhancedMovieNotifier.defaultConfig
        movieHigh = true ∧
    EnhancedMovieNotifier.filter_high_rated_movies
        EnhancedMovieNotifier.defaultConfig clock2h [movieLow, movieHigh]
      = [EnhancedMovieNotifier.annotate clock2h movieHigh,
         EnhancedMovieNotifier.annotate clock2h movieLow] ∧
    EnhancedMovieNotifier.annotate clock2h movieHigh
      ≠ EnhancedMovieNotifier.annotate clock2h movieLow := by
  have hL : EnhancedMovieNotifier.calculate_movie_score clock2h movieLow = 43 := by
    norm_num +decide [EnhancedMovieNotifier.calculate_movie_score,
      EnhancedMovieNotifier.recencyBonus, EnhancedMovieNotifier.yearBonus,
      EnhancedMovieNotifier.genreBonus, EnhancedMovieNotifier.torrentBonus,
      EnhancedMovieNotifier.titleBonus, movieLow, clock2h,
      EnhancedMovieNotifier.HIGH_PRIORITY_GENRES,
      EnhancedMovieNotifier.PREFERRED_GENRES,
      EnhancedMovieNotifier.SEQUEL_INDICATORS,
      EnhancedMovieNotifier.FAMOUS_PATTERNS, strContains, lowerStr,
      charsContain, charsStart, EnhancedMovieNotifier.totalSeeds,
      EnhancedMovieNotifier.seedTierBonus]
  have hH : EnhancedMovieNotifier.calculate_movie_score clock2h movieHigh = 52 := by
    norm_num +decide [EnhancedMovieNotifier.calculate_movie_score,
      EnhancedMovieNotifier.recencyBonus, EnhancedMovieNotifier.yearBonus,
      EnhancedMovieNotifier.genreBonus, EnhancedMovieNotifier.torrentBonus,
      EnhancedMovieNotifier.titleBonus, movieHigh, clock2h,
      EnhancedMovieNotifier.HIGH_PRIORITY_GENRES,
      EnhancedMovieNotifier.PREFERRED_GENRES,
      EnhancedMovieNotifier.SEQUEL_INDICATORS,
      EnhancedMovieNotifier.FAMOUS_PATTERNS, strContains, lowerStr,
      charsContain, charsStart, EnhancedMovieNotifier.totalSeeds,
      EnhancedMovieNotifier.seedTierBonus]
  have p1 : EnhancedMovieNotifier.passesFilter
      EnhancedMovieNotifier.defaultConfig movieLow = true := by decide
  have p2 : EnhancedMovieNotifier.passesFilter
      EnhancedMovieNotifier.defaultConfig movieHigh = true := by decide
  have hkey : ¬ EnhancedMovieNotifier.keyLe
      (EnhancedMovieNotifier.sortKey (EnhancedMovieNotifier.annotate clock2h movieHigh))
      (EnhancedMovieNotifier.sortKey (EnhancedMovieNotifier.annotate clock2h movieLow)) := by
    simp only [EnhancedMovieNotifier.keyLe, EnhancedMovieNotifier.sortKey,
      EnhancedMovieNotifier.annotate, hL, hH]
    norm_num [movieLow, movieHigh]
  refine ⟨p1, p2, ?_, ?_⟩
  · show EnhancedMovieNotifier.sortByKeyDesc
        (EnhancedMovieNotifier.filterLoop EnhancedMovieNotifier.defaultConfig
          clock2h [movieLow, movieHigh]) = _
    rw [show EnhancedMovieNotifier.filterLoop EnhancedMovieNotifier.defaultConfig
        clock2h [movieLow, movieHigh]
        = [EnhancedMovieNotifier.annotate clock2h movieLow,
           EnhancedMovieNotifier.annotate clock2h movieHigh] by
      simp [EnhancedMovieNotifier.filterLoop, p1, p2]]
    simp only [EnhancedMovieNotifier.sortByKeyDesc,
      EnhancedMovieNotifier.insertDesc, if_neg hkey]
  · decide

/-- C5 (amended): every entry of the output of
`filter_high_rated_movies` is an input entry carrying its computed score
(nothing is inserted), and the output is a permutation of the admitted
entries in input order — the input order itself is however re-arranged by
the descending `(score, rating)` sort. -/
theorem C5_admit_subset (cfg : Config) (clock : Clock) (movies : List Movie) :
    List.Perm (EnhancedMovieNotifier.filter_high_rated_movies cfg clock movies)
        (EnhancedMovieNotifier.filterLoop cfg clock movies) ∧
    ∀ m' ∈ EnhancedMovieNotifier.filter_high_rated_movies cfg clock movies,
      ∃ m, m ∈ movies ∧ EnhancedMovieNotifier.passesFilter cfg m = true ∧
        m' = EnhancedMovieNotifier.annotate clock m := by
  refine ⟨EnhancedMovieNotifier.sortByKeyDesc_perm _, ?_⟩
  intro m' hm'
  exact EnhancedMovieNotifier.mem_filterLoop.mp
    ((EnhancedMovieNotifier.sortByKeyDesc_perm _).mem_iff.mp hm')

/-- Witness for C5 (amended): instantiated on the two-entry batch; the
annotated `movieHigh` in the output comes from the input. -/
theorem C5_admit_subset_witness :
    ∃ m, m ∈ [movieLow, movieHigh] ∧
      EnhancedMovieNotifier.passesFilter EnhancedMovieNotifier.defaultConfig
        m = true ∧
      EnhancedMovieNotifier.annotate clock2h movieHigh
        = EnhancedMovieNotifier.annotate clock2h m :=
  (C5_admit_subset EnhancedMovieNotifier.defaultConfig clock2h
      [movieLow, movieHigh]).2
    (EnhancedMovieNotifier.annotate clock2h movieHigh)
    (by
      show _ ∈ EnhancedMovieNotifier.sortByKeyDesc
        (EnhancedMovieNotifier.filterLoop EnhancedMovieNotifier.defaultConfig
          clock2h [movieLow, movieHigh])
      exact (EnhancedMovieNotifier.sortByKeyDesc_perm _).mem_iff.mpr
        (EnhancedMovieNotifier.mem_filterLoop.mpr
          ⟨movieHigh, by simp, by decide, rfl⟩))

/-- C6: Presentation ordering.  On any batch, the emitted order of
`sortByKeyDesc` (the model of `filtered_movies.sort(key=lambda x:
(x['_score'], x.get('rating', 0)), reverse=True)`) is descending in the
`(score, rating)` key, is a permutation of the batch, and is stable:
entries with the same key keep their relative input order. -/
theorem C6_stable_descending_sort (batch : List Movie) :
    (EnhancedMovieNotifier.sortByKeyDesc batch).Pairwise
        (fun a b => EnhancedMovieNotifier.keyLe
          (EnhancedMovieNotifier.sortKey b) (EnhancedMovieNotifier.sortKey a)) ∧
    List.Perm (EnhancedMovieNotifier.sortByKeyDesc batch) batch ∧
    ∀ k, (EnhancedMovieNotifier.sortByKeyDesc batch).filter
          (fun m => decide (EnhancedMovieNotifier.sortKey m = k))
        = batch.filter (fun m => decide (EnhancedMovieNotifier.sortKey m = k)) :=
  ⟨EnhancedMovieNotifier.sortByKeyDesc_pairwise batch,
   EnhancedMovieNotifier.sortByKeyDesc_perm batch,
   fun k => EnhancedMovieNotifier.sortByKeyDesc_filter batch k⟩

/-! ### Lemmas about the scorer -/

namespace EnhancedMovieNotifier

/-- An absent/empty listing timestamp contributes nothing: the
`if date_added:` guard skips the whole recency block. -/
lemma recencyBonus_missing (clock : Clock) : recencyBonus clock "" = 0 := by
  simp [recencyBonus]

/-- A present but unparseable listing timestamp lands in the `except:`
branch and contributes the flat bonus 15. -/
lemma recencyBonus_unparseable (clock : Clock) (d : String) (hd : d ≠ "")
    (hp : parseIso (replaceZ d) = none) : recencyBonus clock d = 15 := by
  simp [recencyBonus, hd, hp]

/-- A parseable listing timestamp contributes the tiered bonus determined
by the hours between the listing and the clock instant. -/
lemma recencyBonus_parsed (clock : Clock) (d : String) (t : Int)
    (hd : d ≠ "") (hp : parseIso (replaceZ d) = some t) :
    recencyBonus clock d =
      (if ((clock.secs - t : ℤ) : ℚ) / 3600 ≤ 24 then 100
       else if ((clock.secs - t : ℤ) : ℚ) / 3600 ≤ 72 then 60
       else if ((clock.secs - t : ℤ) : ℚ) / 3600 ≤ 168 then 40
       else if ((clock.secs - t : ℤ) : ℚ) / 3600 ≤ 720 then 20
       else 10) := by
  simp [recencyBonus, hd, hp]

/-- Changing only the listing timestamp changes only the recency
contribution of the score. -/
lemma score_date_sub (clock : Clock) (m : Movie) (d1 d2 : String) :
    calculate_movie_score clock { m with date_uploaded := d1 }
        - calculate_movie_score clock { m with date_uploaded := d2 }
      = recencyBonus clock d1 - recencyBonus clock d2 := by
  simp only [calculate_movie_score]
  ring

/-- Changing only the clock changes only the recency and release-year
contributions of the score. -/
lemma score_clock_sub (c c' : Clock) (m : Movie) :
    calculate_movie_score c' m - calculate_movie_score c m
      = (recencyBonus c' m.date_uploaded - recencyBonus c m.date_uploaded)
        + (yearBonus c' m.year - yearBonus c m.year) := by
  simp only [calculate_movie_score]
  ring

/-- Changing only the distribution variants changes only the torrent
contribution of the score. -/
lemma score_torrents_sub (clock : Clock) (m : Movie) (ts : List Torrent) :
    calculate_movie_score clock { m with torrents := ts }
        - calculate_movie_score clock m
      = torrentBonus ts - torrentBonus m.torrents := by
  simp only [calculate_movie_score]
  ring

/-- Replacing the `seeds` entry of the `i`-th variant shifts the seed
total by the difference. -/
lemma totalSeeds_set (ts : List Torrent) (i : ℕ) (t : Torrent) (s' : Int)
    (h : ts.get? i = some t) :
    totalSeeds (ts.set i { t with seeds := some s' })
      = totalSeeds ts - t.seeds.getD 0 + s' := by
  induction ts generalizing i with
  | nil => simp at h
  | cons x xs ih =>
      cases i with
      | zero =>
          simp only [List.get?] at h
          cases h
          simp only [List.set, totalSeeds, List.map_cons, List.sum_cons,
            Option.getD_some]
          ring
      | succ i =>
          simp only [List.get?] at h
          simp only [List.set, totalSeeds, List.map_cons, List.sum_cons]
          have := ih i h
          simp only [totalSeeds] at this
          rw [this]
          ring

/-- The enhanced tiered seed bonus is monotone in the seed total. -/
lemma seedTierBonus_mono {a b : Int} (h : a ≤ b) :
    seedTierBonus a ≤ seedTierBonus b := by
  unfold seedTierBonus
  split_ifs <;> try norm_num
  all_goals omega

/-- Raising one variant's seed count never lowers the enhanced torrent
contribution. -/
lemma torrentBonus_set_le (ts : List Torrent) (i : ℕ) (t : Torrent)
    (s' : Int) (hget : ts.get? i = some t) (hs : t.seeds.getD 0 < s') :
    torrentBonus ts ≤ torrentBonus (ts.set i { t with seeds := some s' }) := by
  have hne : ts ≠ [] := by
    rintro rfl
    simp at hget
  have h1 : ts.isEmpty = false := by
    simpa [List.isEmpty_iff] using hne
  have h2 : (ts.set i { t with seeds := some s' }).isEmpty = false := by
    simp [List.isEmpty_iff, hne]
  unfold torrentBonus
  rw [h1, h2]
  simp only [Bool.false_eq_true, if_false, List.length_set]
  have htot : totalSeeds ts ≤ totalSeeds (ts.set i { t with seeds := some s' }) := by
    rw [totalSeeds_set ts i t s' hget]
    omega
  have := seedTierBonus_mono htot
  linarith

end EnhancedMovieNotifier

namespace MovieNotifier

/-- Changing only the distribution variants changes only the torrent
contribution of the basic score. -/
lemma basic_score_torrents_sub (clock : Clock) (m : Movie) (ts : List Torrent) :
    calculate_movie_score clock { m with torrents := ts }
        - calculate_movie_score clock m
      = torrentBonus ts - torrentBonus m.torrents := by
  simp only [calculate_movie_score]
  ring

/-- The basic tiered seed bonus is monotone in the seed total. -/
lemma basic_seedTierBonus_mono {a b : Int} (h : a ≤ b) :
    seedTierBonus a ≤ seedTierBonus b := by
  unfold seedTierBonus
  split_ifs <;> try norm_num
  all_goals omega

/-- Raising one variant's seed count never lowers the basic torrent
contribution. -/
lemma basic_torrentBonus_set_le (ts : List Torrent) (i : ℕ) (t : Torrent)
    (s' : Int) (hget : ts.get? i = some t) (hs : t.seeds.getD 0 < s') :
    torrentBonus ts ≤ torrentBonus (ts.set i { t with seeds := some s' }) := by
  have hne : ts ≠ [] := by
    rintro rfl
    simp at hget
  have h1 : ts.isEmpty = false := by
    simpa [List.isEmpty_iff] using hne
  have h2 : (ts.set i { t with seeds := some s' }).isEmpty = false := by
    simp [List.isEmpty_iff, hne]
  unfold torrentBonus
  rw [h1, h2]
  simp only [Bool.false_eq_true, if_false, List.length_set]
  have htot : EnhancedMovieNotifier.totalSeeds ts
      ≤ EnhancedMovieNotifier.totalSeeds (ts.set i { t with seeds := some s' }) := by
    rw [EnhancedMovieNotifier.totalSeeds_set ts i t s' hget]
    omega
  have := basic_seedTierBonus_mono htot
  linarith

end MovieNotifier

/-! ### Claims about the scorer -/

/-- C2 (counterexample): the claim that a missing timestamp and an
unparseable timestamp receive the same flat recency bonus is false.
`movieBadStamp` (timestamp `"not-a-date"`, unparseable) and `movieA`
(timestamp absent) are otherwise identical, yet their scores differ: the
unparseable stamp gets the flat bonus 15 while the missing stamp gets no
recency bonus at all. -/
theorem C2_flat_bonus_counterexample :
    EnhancedMovieNotifier.calculate_movie_score clock2h movieBadStamp
      ≠ EnhancedMovieNotifier.calculate_movie_score clock2h movieA := by
  have h1 : EnhancedMovieNotifier.recencyBonus clock2h "not-a-date" = 15 :=
    EnhancedMovieNotifier.recencyBonus_unparseable _ _ (by decide) (by decide)
  have h2 : EnhancedMovieNotifier.recencyBonus clock2h "" = 0 :=
    EnhancedMovieNotifier.recencyBonus_missing _
  have h3 := EnhancedMovieNotifier.score_date_sub clock2h movieA "not-a-date" ""
  rw [h1, h2,
    show ({ movieA with date_uploaded := "not-a-date" } : Movie) = movieBadStamp
      from rfl,
    show ({ movieA with date_uploaded := "" } : Movie) = movieA from rfl] at h3
  intro he
  rw [he] at h3
  norm_num at h3

/-- C2 (amended): Listing-recency contribution of the score.  For
parseable timestamps the recency contribution is the tier of the hours
between listing and clock (100 if ≤ 24h, 60 if ≤ 72h, 40 if ≤ 168h, 20 if
≤ 720h, else 10), so an otherwise-identical entry listed 2 hours ago
scores strictly higher than one listed 200 hours ago.  A present but
unparseable timestamp adds the flat bonus 15; a missing timestamp adds no
recency bonus at all (0), and neither case fails. -/
theorem C2_listing_recency :
    (∀ (clock : Clock) (m : Movie) (dR dO : String) (tR tO : Int),
        dR ≠ "" → dO ≠ "" →
        parseIso (replaceZ dR) = some tR →
        parseIso (replaceZ dO) = some tO →
        ((clock.secs - tR : ℤ) : ℚ) / 3600 = 2 →
        ((clock.secs - tO : ℤ) : ℚ) / 3600 = 200 →
        EnhancedMovieNotifier.calculate_movie_score clock
            { m with date_uploaded := dO }
          < EnhancedMovieNotifier.calculate_movie_score clock
            { m with date_uploaded := dR }) ∧
    (∀ (clock : Clock) (m : Movie), m.date_uploaded ≠ "" →
        parseIso (replaceZ m.date_uploaded) = none →
        EnhancedMovieNotifier.calculate_movie_score clock m
          = EnhancedMovieNotifier.calculate_movie_score clock
              { m with date_uploaded := "" } + 15) ∧
    (∀ (clock : Clock) (m : Movie) (t : Int), m.date_uploaded ≠ "" →
        parseIso (replaceZ m.date_uploaded) = some t →
        EnhancedMovieNotifier.calculate_movie_score clock m
          = EnhancedMovieNotifier.calculate_movie_score clock
              { m with date_uploaded := "" }
            + (if ((clock.secs - t : ℤ) : ℚ) / 3600 ≤ 24 then 100
               else if ((clock.secs - t : ℤ) : ℚ) / 3600 ≤ 72 then 60
               else if ((clock.secs - t : ℤ) : ℚ) / 3600 ≤ 168 then 40
               else if ((clock.secs - t : ℤ) : ℚ) / 3600 ≤ 720 then 20
               else 10)) ∧
    (∀ clock : Clock, EnhancedMovieNotifier.recencyBonus clock "" = 0) := by
  refine ⟨?_, ?_, ?_, EnhancedMovieNotifier.recencyBonus_missing⟩
  · intro clock m dR dO tR tO hdR hdO hpR hpO hhR hhO
    have e1 : EnhancedMovieNotifier.recencyBonus clock dR = 100 := by
      rw [EnhancedMovieNotifier.recencyBonus_parsed clock dR tR hdR hpR, hhR]
      norm_num
    have e2 : EnhancedMovieNotifier.recencyBonus clock dO = 20 := by
      rw [EnhancedMovieNotifier.recencyBonus_parsed clock dO tO hdO hpO, hhO]
      norm_num
    have hsub := EnhancedMovieNotifier.score_date_sub clock m dO dR
    rw [e1, e2] at hsub
    linarith
  · intro clock m hd hp
    have h1 := EnhancedMovieNotifier.score_date_sub clock m m.date_uploaded ""
    rw [show ({ m with date_uploaded := m.date_uploaded } : Movie) = m from rfl,
      EnhancedMovieNotifier.recencyBonus_unparseable clock _ hd hp,
      EnhancedMovieNotifier.recencyBonus_missing clock] at h1
    linarith
  · intro clock m t hd hp
    have h1 := EnhancedMovieNotifier.score_date_sub clock m m.date_uploaded ""
    rw [show ({ m with date_uploaded := m.date_uploaded } : Movie) = m from rfl,
      EnhancedMovieNotifier.recencyBonus_parsed clock _ t hd hp,
      EnhancedMovieNotifier.recencyBonus_missing clock] at h1
    linarith

/-- Witness for C2 (amended): `movieStamped` (listed 2 hours before
`clock2h`) out-scores `movieStampedOld` (listed 200 hours before), all
other fields equal. -/
theorem C2_listing_recency_witness :
    EnhancedMovieNotifier.calculate_movie_score clock2h movieStampedOld
      < EnhancedMovieNotifier.calculate_movie_score clock2h movieStamped :=
  C2_listing_recency.1 clock2h movieA "2025-06-01 10:00:00"
    "2025-05-24 04:00:00" 1748772000 1748059200 (by decide) (by decide)
    (by decide) (by decide) (by norm_num [clock2h]) (by norm_num [clock2h])

/-- C7: Monotonicity of both scorers in swarm popularity.  Replacing the
seed count of any one distribution variant with a strictly larger value,
holding everything else (and the clock) fixed, never decreases the
enhanced score or the basic score. -/
theorem C7_seed_monotonicity (clock : Clock) (m : Movie) (i : ℕ)
    (t : Torrent) (s' : Int) (hget : m.torrents.get? i = some t)
    (hs : t.seeds.getD 0 < s') :
    EnhancedMovieNotifier.calculate_movie_score clock m ≤
      EnhancedMovieNotifier.calculate_movie_score clock
        { m with torrents := m.torrents.set i { t with seeds := some s' } } ∧
    MovieNotifier.calculate_movie_score clock m ≤
      MovieNotifier.calculate_movie_score clock
        { m with torrents := m.torrents.set i { t with seeds := some s' } } := by
  constructor
  · have hsub := EnhancedMovieNotifier.score_torrents_sub clock m
      (m.torrents.set i { t with seeds := some s' })
    have hb := EnhancedMovieNotifier.torrentBonus_set_le m.torrents i t s' hget hs
    linarith
  · have hsub := MovieNotifier.basic_score_torrents_sub clock m
      (m.torrents.set i { t with seeds := some s' })
    have hb := MovieNotifier.basic_torrentBonus_set_le m.torrents i t s' hget hs
    linarith

/-- Witness for C7: raising the single variant of `movieTorrent` from 120
seeds to 300 seeds does not lower either score. -/
theorem C7_seed_monotonicity_witness :
    EnhancedMovieNotifier.calculate_movie_score clock2h movieTorrent ≤
      EnhancedMovieNotifier.calculate_movie_score clock2h
        { movieTorrent with torrents :=
            movieTorrent.torrents.set 0 { torrent120 with seeds := some 300 } } ∧
    MovieNotifier.calculate_movie_score clock2h movieTorrent ≤
      MovieNotifier.calculate_movie_score clock2h
        { movieTorrent with torrents :=
            movieTorrent.torrents.set 0 { torrent120 with seeds := some 300 } } :=
  C7_seed_monotonicity clock2h movieTorrent 0 torrent120 300 (by decide)
    (by decide)

/-- C8 (counterexample): the claim that the scorer does not read the
ambient clock internally is false: the same entry evaluated at two
different clock instants (2 hours and 1000 hours after its listing, same
calendar year) receives different scores, because
`calculate_movie_score` calls `datetime.now()` itself. -/
theorem C8_clock_dependence_counterexample :
    EnhancedMovieNotifier.calculate_movie_score clock2h movieStamped
      ≠ EnhancedMovieNotifier.calculate_movie_score clock1000h movieStamped := by
  have e2 : EnhancedMovieNotifier.recencyBonus clock2h "2025-06-01 10:00:00"
      = 100 := by
    rw [EnhancedMovieNotifier.recencyBonus_parsed clock2h _ 1748772000
      (by decide) (by decide)]
    norm_num [clock2h]
  have e1000 : EnhancedMovieNotifier.recencyBonus clock1000h
      "2025-06-01 10:00:00" = 10 := by
    rw [EnhancedMovieNotifier.recencyBonus_parsed clock1000h _ 1748772000
      (by decide) (by decide)]
    norm_num [clock1000h]
  have y2 : EnhancedMovieNotifier.yearBonus clock2h movieStamped.year = 25 := by
    norm_num [EnhancedMovieNotifier.yearBonus, clock2h, movieStamped, movieA]
  have y1000 : EnhancedMovieNotifier.yearBonus clock1000h movieStamped.year
      = 25 := by
    norm_num [EnhancedMovieNotifier.yearBonus, clock1000h, movieStamped, movieA]
  have hsub := EnhancedMovieNotifier.score_clock_sub clock2h clock1000h
    movieStamped
  rw [show movieStamped.date_uploaded = "2025-06-01 10:00:00" from rfl,
    e2, e1000, y2, y1000] at hsub
  intro he
  rw [he] at hsub
  norm_num at hsub

/-- C8 (amended): the scorer is deterministic given the entry and the
clock reading — equal entries and equal clock readings give equal scores —
and its dependence on the clock is confined to the recency and
release-year contributions; the clock reading is however taken inside the
function (modelled by the explicit `Clock` argument standing for the
internal `datetime.now()` calls), not supplied by the caller. -/
theorem C8_determinism :
    (∀ (clock clock' : Clock) (m m' : Movie), clock = clock' → m = m' →
        EnhancedMovieNotifier.calculate_movie_score clock m
          = EnhancedMovieNotifier.calculate_movie_score clock' m') ∧
    (∀ (clock clock' : Clock) (m : Movie),
        EnhancedMovieNotifier.calculate_movie_score clock' m
            - EnhancedMovieNotifier.calculate_movie_score clock m
          = (EnhancedMovieNotifier.recencyBonus clock' m.date_uploaded
              - EnhancedMovieNotifier.recencyBonus clock m.date_uploaded)
            + (EnhancedMovieNotifier.yearBonus clock' m.year
              - EnhancedMovieNotifier.yearBonus clock m.year)) := by
  constructor
  · rintro clock clock' m m' rfl rfl
    rfl
  · intro clock clock' m
    exact EnhancedMovieNotifier.score_clock_sub clock clock' m

/-- Witness for C8 (amended): instantiated at `clock2h` and `movieA`. -/
theorem C8_determinism_witness :
    EnhancedMovieNotifier.calculate_movie_score clock2h movieA
      = EnhancedMovieNotifier.calculate_movie_score clock2h movieA :=
  C8_determinism.1 clock2h clock2h movieA movieA rfl rfl

/-- C9 (counterexample): the claim that `filter_high_rated_movies`
leaves the input entries unchanged is false: after the call on
`[movieLow]`, the (admitted) input entry has gained the `'_score'` key,
so the input sequence's entries are not what they were. -/
theorem C9_side_effect_counterexample :
    EnhancedMovieNotifier.filterInput_after EnhancedMovieNotifier.defaultConfig
        clock2h [movieLow] ≠ [movieLow] := by
  have p : EnhancedMovieNotifier.passesFilter EnhancedMovieNotifier.defaultConfig
      movieLow = true := by decide
  intro he
  simp only [EnhancedMovieNotifier.filterInput_after, List.map_cons,
    List.map_nil, p, if_true, EnhancedMovieNotifier.annotate] at he
  have := (List.cons.injEq _ _ _ _).mp he
  have h2 := congrArg Movie.scoreField this.1
  simp [movieLow] at h2

/-- C9 (amended): the call's effect on the input entries is confined to
the `'_score'` key: every input entry keeps all its other fields, a
rejected entry is completely untouched, and the returned entries are
(reference-identically) among the post-call input entries; no state other
than the entries is modified. -/
theorem C9_score_write_frame (cfg : Config) (clock : Clock)
    (movies : List Movie) :
    List.Forall₂ (fun before after =>
        ({ before with scoreField := none } : Movie)
            = { after with scoreField := none }
        ∧ (EnhancedMovieNotifier.passesFilter cfg before = false →
            after = before))
      movies (EnhancedMovieNotifier.filterInput_after cfg clock movies) ∧
    ∀ m' ∈ EnhancedMovieNotifier.filter_high_rated_movies cfg clock movies,
      m' ∈ EnhancedMovieNotifier.filterInput_after cfg clock movies := by
  constructor
  · unfold EnhancedMovieNotifier.filterInput_after
    rw [List.forall₂_map_right_iff, List.forall₂_same]
    intro m hm
    by_cases hp : EnhancedMovieNotifier.passesFilter cfg m = true
    · rw [if_pos hp]
      exact ⟨rfl, fun hf => absurd hp (by simp [hf])⟩
    · rw [if_neg hp]
      exact ⟨rfl, fun _ => rfl⟩
  · intro m' hm'
    rcases EnhancedMovieNotifier.mem_filterLoop.mp
        ((EnhancedMovieNotifier.sortByKeyDesc_perm _).mem_iff.mp hm') with
      ⟨m, hm, hp, rfl⟩
    unfold EnhancedMovieNotifier.filterInput_after
    exact List.mem_map.mpr ⟨m, hm, by rw [if_pos hp]⟩

/-- Witness for C9 (amended): the returned annotated `movieHigh` is among
the post-call input entries of the batch `[movieHigh]`. -/
theorem C9_score_write_frame_witness :
    EnhancedMovieNotifier.annotate clock2h movieHigh
      ∈ EnhancedMovieNotifier.filterInput_after
          EnhancedMovieNotifier.defaultConfig clock2h [movieHigh] :=
  (C9_score_write_frame EnhancedMovieNotifier.defaultConfig clock2h
      [movieHigh]).2
    (EnhancedMovieNotifier.annotate clock2h movieHigh)
    (by
      show _ ∈ EnhancedMovieNotifier.sortByKeyDesc
        (EnhancedMovieNotifier.filterLoop EnhancedMovieNotifier.defaultConfig
          clock2h [movieHigh])
      exact (EnhancedMovieNotifier.sortByKeyDesc_perm _).mem_iff.mpr
        (EnhancedMovieNotifier.mem_filterLoop.mpr
          ⟨movieHigh, by simp, by decide, rfl⟩))
